import Mathlib

/-!
Shallow embedding of `src/ui/renderer.py` (class `Renderer`) of the
FogMoe/miniGame repository, together with theorems about its drawing
behaviour.  The renderer is a pure per-frame view over read-only
snapshots; drawing calls are embedded as functions producing a trace of
render operations, and the mutable screen is embedded as explicit state
passing over a `World` record.  External collaborators that are not part
of `src` (the colour constants, `Board`, `Player`, `AnimationManager`,
`GameLogic`, the configuration provider) are modelled from the spec as
plain data carrying exactly what the renderer reads from them.
-/

/-- Modelled from the spec: the colour constants imported from
`models.constants` (the constants module is not part of src).  Distinct
named colours, with the per-owner home colours `HOME_COLORS[owner]`
represented as the indexed family `HOME_COLOR owner`. -/
inductive Color where
  | WHITE
  | BLACK
  | RED
  | GREEN
  | GRAY
  | LIGHT_BLUE
  | GOLD
  | REWARD_COLOR
  | DISCARD_COLOR
  | HOME_COLOR (owner : Nat)
  deriving DecidableEq, Repr

/-- Modelled from the spec: a board cell as consumed by the renderer.
The renderer only consults the three role predicates and the owner
index, so the cell is embedded as exactly those observations; a
malformed role (all predicates false, or several true) is representable. -/
structure Cell where
  is_home_cell : Bool
  is_reward_cell : Bool
  is_penalty_cell : Bool
  owner : Nat
  deriving DecidableEq, Repr

/-- The fill-colour selection of `draw_board` (renderer.py lines 54-62):
home cells take the owner-indexed home colour, then reward, then
penalty, and anything else falls through to gray. -/
def select_fill_color (cell : Cell) : Color :=
  if cell.is_home_cell then Color.HOME_COLOR cell.owner
  else if cell.is_reward_cell then Color.REWARD_COLOR
  else if cell.is_penalty_cell then Color.DISCARD_COLOR
  else Color.GRAY

/-- The type label of a cell (renderer.py lines 76-83). -/
def cell_type_text (cell : Cell) : String :=
  if cell.is_home_cell then "H" ++ toString (cell.owner + 1)
  else if cell.is_reward_cell then "奖励"
  else if cell.is_penalty_cell then "丢弃"
  else "普通"

/-- One cell render of `draw_board`: the square centred on the cell
position together with its fill colour and the two text labels. -/
structure CellRender where
  index : Nat
  center : Int × Int
  fill : Color
  index_label : String
  index_label_pos : Int × Int
  type_label : String
  type_label_pos : Int × Int
  deriving DecidableEq, Repr

/-- One iteration of the cell loop of `draw_board` (renderer.py lines
51-87): a filled and outlined square centred on the cell position, the
numeric index label 20 px above centre and the type label 10 px below
centre. -/
def render_cell (i : Nat) (xy : Int × Int) (cell : Cell) : CellRender :=
  { index := i
    center := xy
    fill := select_fill_color cell
    index_label := toString i
    index_label_pos := (xy.1, xy.2 - 20)
    type_label := cell_type_text cell
    type_label_pos := (xy.1, xy.2 + 10) }

/-- Modelled from the spec: the `Board` collaborator (not part of src);
an ordered sequence of cell pixel positions with index-to-cell and
index-to-pixel-position lookups. -/
structure Board where
  cell_positions : List (Int × Int)
  get_cell : Nat → Cell
  get_cell_position : Nat → Int × Int

/-- The per-cell renders issued by `draw_board`, in board order
(renderer.py lines 51-87): `enumerate(board.cell_positions)` with
`board.get_cell(i)` looked up per index. -/
def draw_board_cells (board : Board) : List CellRender :=
  board.cell_positions.enum.map (fun p => render_cell p.1 p.2 (board.get_cell p.1))

/-- A single drawing operation on the screen surface. -/
inductive RenderOp where
  | fillScreen (c : Color)
  | cellSquare (r : CellRender)
  | glowCircle (center : Int × Int)
  | token (center : Int × Int) (c : Color)
  | text (s : String) (c : Color) (pos : Int × Int)
  | textCentered (s : String) (c : Color) (center : Int × Int)
  | rectFill (x y w h : Int) (c : Color)
  | rectOutline (x y w h : Int) (c : Color)
  deriving DecidableEq, Repr

/-- The full operation trace of `draw_board` (renderer.py lines 41-87):
a white background clear followed by one cell render per board cell. -/
def draw_board_ops (board : Board) : List RenderOp :=
  RenderOp.fillScreen Color.WHITE :: (draw_board_cells board).map RenderOp.cellSquare

/-- C6: the cell fill-colour selection in draw_board is a total,
deterministic function of the cell role alone, returning exactly one of
the home-owner colour, the reward colour, the penalty colour and the
neutral colour; a cell matching none of the predicates receives the
neutral colour rather than causing an error. -/
theorem C6_select_fill_color_total (cell : Cell) :
    (select_fill_color cell = Color.HOME_COLOR cell.owner ∨
     select_fill_color cell = Color.REWARD_COLOR ∨
     select_fill_color cell = Color.DISCARD_COLOR ∨
     select_fill_color cell = Color.GRAY) ∧
    (∀ c₂ : Cell, cell.is_home_cell = c₂.is_home_cell →
      cell.is_reward_cell = c₂.is_reward_cell →
      cell.is_penalty_cell = c₂.is_penalty_cell →
      cell.owner = c₂.owner →
      select_fill_color cell = select_fill_color c₂) ∧
    (cell.is_home_cell = false → cell.is_reward_cell = false →
      cell.is_penalty_cell = false → select_fill_color cell = Color.GRAY) := by
  refine ⟨?_, ?_, ?_⟩
  · rcases cell with ⟨h1, h2, h3, o⟩
    cases h1 <;> cases h2 <;> cases h3 <;> simp [select_fill_color]
  · intro c₂ e1 e2 e3 e4
    simp only [select_fill_color]
    rw [e1, e2, e3, e4]
  · intro e1 e2 e3
    simp [select_fill_color, e1, e2, e3]

/-- Witness for C6 at a concrete malformed cell. -/
theorem C6_select_fill_color_total_witness :
    select_fill_color ⟨false, false, false, 0⟩ = Color.GRAY :=
  (C6_select_fill_color_total ⟨false, false, false, 0⟩).2.2 rfl rfl rfl

/-- C7: draw_board performs exactly N cell renders for a board of N
cells, one per cell in board order, the i-th centred at the board's
declared pixel position for index i; for N = 0 the trace is only the
background clear. -/
theorem C7_draw_board_renders (board : Board) :
    (draw_board_cells board).length = board.cell_positions.length ∧
    (∀ i (h : i < board.cell_positions.length),
      (draw_board_cells board).get? i =
        some (render_cell i (board.cell_positions.get ⟨i, h⟩) (board.get_cell i))) ∧
    (∀ i xy c, (render_cell i xy c).center = xy) ∧
    (board.cell_positions = [] →
      draw_board_ops board = [RenderOp.fillScreen Color.WHITE]) := by
  refine ⟨?_, ?_, ?_, ?_⟩
  · simp [draw_board_cells]
  · intro i h
    have hi : i < board.cell_positions.enum.length := by simpa using h
    rw [draw_board_cells, List.get?_map, List.get?_eq_get hi, List.get_enum]
    simp
  · intro i xy c
    rfl
  · intro h
    simp [draw_board_ops, draw_board_cells, h]

/-- Witness for C7 on a concrete two-cell board. -/
theorem C7_draw_board_renders_witness :
    (draw_board_cells
      ⟨[(100, 100), (160, 100)], fun _ => ⟨false, true, false, 0⟩, fun _ => (0, 0)⟩).get? 1 =
      some (render_cell 1 (160, 100) ⟨false, true, false, 0⟩) :=
  (C7_draw_board_renders
    ⟨[(100, 100), (160, 100)], fun _ => ⟨false, true, false, 0⟩, fun _ => (0, 0)⟩).2.1 1
    (by decide)

/-- Modelled from the spec: a player as consumed by the renderer: id,
money balance, token colour, AI flag, optional stored network name
(`hasattr(player, 'name')` is `name.isSome`), current board-cell index,
and the AI-type display name used for AI labels. -/
structure Player where
  id : Nat
  money : Int
  color : Color
  is_ai : Bool
  name : Option String
  position : Nat
  get_player_type_name : String
  deriving DecidableEq, Repr

/-- Modelled from the spec: the per-frame animation snapshot: whether a
player is mid-move, which player id is moving, and the interpolated
on-screen position function for the current frame. -/
structure AnimationManager where
  player_moving : Bool
  moving_player_id : Nat
  get_animated_player_position : Nat → Board → Int × Int

/-- The anti-overlap stagger of `draw_players` (renderer.py lines
105-107): `offset_x = (i % 2) * 15 - 7`, `offset_y = (i // 2) * 15 - 7`. -/
def player_offset (i : Nat) : Int × Int :=
  (((i % 2 : Nat) : Int) * 15 - 7, ((i / 2 : Nat) : Int) * 15 - 7)

/-- One player token render of `draw_players`: the base position chosen
between animation and static board lookup, the stagger offset, the
resulting circle centre, the glow flag and the token colour. -/
structure PlayerRender where
  base_pos : Int × Int
  offset : Int × Int
  center : Int × Int
  glow : Bool
  color : Color
  deriving DecidableEq, Repr

/-- One iteration of the player loop of `draw_players` (renderer.py
lines 98-118): the moving player (by list index) takes the animated
position, every other player the static cell-position lookup; the glow
ring is drawn exactly for the moving player. -/
def render_player (board : Board) (am : AnimationManager) (i : Nat)
    (player : Player) : PlayerRender :=
  let base :=
    if am.player_moving && am.moving_player_id == i then
      am.get_animated_player_position i board
    else
      board.get_cell_position player.position
  let off := player_offset i
  { base_pos := base
    offset := off
    center := (base.1 + off.1, base.2 + off.2)
    glow := am.player_moving && am.moving_player_id == i
    color := player.color }

/-- The per-player renders issued by `draw_players`, in player-list
order (renderer.py lines 89-118). -/
def draw_players (players : List Player) (board : Board)
    (am : AnimationManager) : List PlayerRender :=
  players.enum.map (fun p => render_player board am p.1 p.2)

/-- The operation trace of `draw_players`: for each player, the optional
glow ring followed by the token circle (filled plus outline, both at the
same centre). -/
def draw_players_ops (players : List Player) (board : Board)
    (am : AnimationManager) : List RenderOp :=
  (draw_players players board am).flatMap (fun r =>
    (if r.glow then [RenderOp.glowCircle r.center] else []) ++
    [RenderOp.token r.center r.color])

/-- C2: when the animation flags a moving player, the player whose list
index equals the moving player id reads its base position from the
animation snapshot and every other player from the static board-cell
lookup; when no player is moving, all players use the static lookup. -/
theorem C2_draw_players_positions (players : List Player) (board : Board)
    (am : AnimationManager) (i : Nat) (h : i < players.length) :
    (draw_players players board am).get? i =
      some (render_player board am i (players.get ⟨i, h⟩)) ∧
    (am.player_moving = true → am.moving_player_id = i →
      (render_player board am i (players.get ⟨i, h⟩)).base_pos =
        am.get_animated_player_position i board) ∧
    (am.player_moving = true → am.moving_player_id ≠ i →
      (render_player board am i (players.get ⟨i, h⟩)).base_pos =
        board.get_cell_position (players.get ⟨i, h⟩).position) ∧
    (am.player_moving = false →
      (render_player board am i (players.get ⟨i, h⟩)).base_pos =
        board.get_cell_position (players.get ⟨i, h⟩).position) := by
  refine ⟨?_, ?_, ?_, ?_⟩
  · have hi : i < players.enum.length := by simpa using h
    rw [draw_players, List.get?_map, List.get?_eq_get hi, List.get_enum]
    simp [List.get_eq_getElem]
  · intro hm hid
    simp [render_player, hm, hid]
  · intro hm hid
    have : (am.moving_player_id == i) = false := by
      simpa using hid
    simp [render_player, hm, this]
  · intro hm
    simp [render_player, hm]

/-- Witness for C2 on a concrete two-player frame with player 1 moving. -/
theorem C2_draw_players_positions_witness :
    (render_player
      ⟨[(0, 0)], fun _ => ⟨false, false, false, 0⟩, fun _ => (50, 60)⟩
      ⟨true, 1, fun _ _ => (77, 88)⟩ 1
      (⟨1, 0, Color.RED, false, none, 0, "玩家"⟩ : Player)).base_pos = (77, 88) :=
  (C2_draw_players_positions
    [⟨0, 0, Color.GREEN, false, none, 0, "玩家"⟩,
     ⟨1, 0, Color.RED, false, none, 0, "玩家"⟩]
    ⟨[(0, 0)], fun _ => ⟨false, false, false, 0⟩, fun _ => (50, 60)⟩
    ⟨true, 1, fun _ _ => (77, 88)⟩ 1 (by decide)).2.1 rfl rfl

/-- C8: the stagger offset is a deterministic function of the list index
alone, and two indices differing in parity or in half differ in their
offset pair, so such players sharing a cell are not drawn fully
overlapping. -/
theorem C8_player_offsets_differ (i j : Nat)
    (h : i % 2 ≠ j % 2 ∨ i / 2 ≠ j / 2) :
    player_offset i ≠ player_offset j := by
  intro he
  rw [player_offset, player_offset, Prod.mk.injEq] at he
  rcases he with ⟨hx, hy⟩
  rcases h with h | h
  · apply h
    omega
  · apply h
    omega

/-- Witness for C8 at the concrete indices 0 and 1. -/
theorem C8_player_offsets_differ_witness :
    player_offset 0 ≠ player_offset 1 :=
  C8_player_offsets_differ 0 1 (by decide)

/-- Modelled from the spec: the game-logic snapshot consumed by
`draw_ui`.  The structural `hasattr` probes of the Python code are
embedded as `Option` fields: `is_local_player_turn` is `some b` when the
attribute exists and the call returns `b`, `none` when absent; likewise
`player_slot`.  `is_game_over` embeds the result of the
`is_game_over()` call. -/
structure GameLogic where
  players : List Player
  current_player : Nat
  dice_result : Int
  effect_dice_result : Int
  message : String
  waiting_for_effect_dice : Bool
  is_game_over : Bool
  is_local_player_turn : Option Bool
  player_slot : Option Nat

/-- Modelled from the spec: `game_logic.get_current_player()`, the
player at the current-player index; `none` embeds the index error raised
on an out-of-range index. -/
def get_current_player (gl : GameLogic) : Option Player :=
  gl.players.get? gl.current_player

/-- The networked-session probe `hasattr(game_logic,
'is_local_player_turn')` (renderer.py lines 136, 194, 224). -/
def is_network_game (gl : GameLogic) : Bool :=
  gl.is_local_player_turn.isSome

/-- The name shown inside the parentheses of a human player label
(renderer.py lines 141-146 and 196-201, which apply the same rule): the
stored name when this is a networked game, the player has a stored name
and it differs from the configured local nickname; otherwise the
configured local nickname. -/
def human_shown_name (is_network : Bool) (nickname : String) (p : Player) : String :=
  match p.name with
  | some n => if is_network then (if n = nickname then nickname else n) else nickname
  | none => nickname

/-- The base label of one player line (renderer.py lines 138-149),
before the local-player and current-player decorations. -/
def player_base_text (nickname : String) (is_network : Bool) (i : Nat)
    (p : Player) : String :=
  if p.is_ai then
    p.get_player_type_name ++ toString (i + 1) ++ ": " ++ toString p.money ++ "金币"
  else
    "玩家" ++ toString (i + 1) ++ "(" ++ human_shown_name is_network nickname p ++
      "): " ++ toString p.money ++ "金币"

/-- The local-player test of the label loop (renderer.py lines 152-158):
when the game logic exposes both `is_local_player_turn` and
`player_slot`, the slot index comparison; otherwise `not player.is_ai`. -/
def is_local_player (gl : GameLogic) (i : Nat) (p : Player) : Bool :=
  match gl.is_local_player_turn, gl.player_slot with
  | some _, some slot => i == slot
  | _, _ => !p.is_ai

/-- The full text of one player line (renderer.py lines 132-164). -/
def player_line (nickname : String) (gl : GameLogic) (i : Nat) (p : Player) : String :=
  let base := player_base_text nickname (is_network_game gl) i p
  let withLocal := if is_local_player gl i p then "[你] " ++ base else base
  if i == gl.current_player then ">>> " ++ withLocal ++ " <<<" else withLocal

/-- The colour of one player line (renderer.py line 166). -/
def line_color (gl : GameLogic) (i : Nat) : Color :=
  if i == gl.current_player then Color.RED else Color.BLACK

/-- The current-player display name of the status line (renderer.py
lines 190-204); the human case shares the nickname rule of the label
loop. -/
def current_player_name (nickname : String) (gl : GameLogic) (current : Player) : String :=
  if current.is_ai then
    current.get_player_type_name ++ toString (current.id + 1)
  else
    "玩家" ++ toString (current.id + 1) ++ "(" ++
      human_shown_name (is_network_game gl) nickname current ++ ")"

/-- The button-visibility authorization of `draw_ui` (renderer.py lines
221-229): in a networked game the result of `is_local_player_turn()`,
otherwise `not current_player.is_ai`. -/
def should_show_button (gl : GameLogic) (current : Player) : Bool :=
  match gl.is_local_player_turn with
  | some b => b
  | none => !current.is_ai

/-- The semantic of the action button. -/
inductive ButtonKind where
  | restart
  | rollEffectDie
  | rollDie
  deriving DecidableEq, Repr

/-- The action button: its rectangle together with its semantic, fill
colour and label. -/
structure ButtonRegion where
  x : Int
  y : Int
  w : Int
  h : Int
  kind : ButtonKind
  fill : Color
  label : String
  deriving DecidableEq, Repr

/-- The restart button (renderer.py lines 231-241). -/
def restart_button (W H : Int) : ButtonRegion :=
  ⟨W - 150, H - 60, 120, 40, ButtonKind.restart, Color.GREEN, "重新开始"⟩

/-- The effect-die button (renderer.py lines 242-252). -/
def effect_dice_button (W H : Int) : ButtonRegion :=
  ⟨W - 150, H - 60, 120, 40, ButtonKind.rollEffectDie, Color.GOLD, "投骰子"⟩

/-- The roll-die button (renderer.py lines 253-263). -/
def roll_dice_button (W H : Int) : ButtonRegion :=
  ⟨W - 150, H - 60, 120, 40, ButtonKind.rollDie, Color.LIGHT_BLUE, "投骰子"⟩

/-- The drawing operations of one button: fill, outline and centred
label. -/
def button_ops (b : ButtonRegion) : List RenderOp :=
  [RenderOp.rectFill b.x b.y b.w b.h b.fill,
   RenderOp.rectOutline b.x b.y b.w b.h Color.BLACK,
   RenderOp.textCentered b.label Color.BLACK (b.x + b.w / 2, b.y + b.h / 2)]

/-- The per-player label operations of `draw_ui` (renderer.py lines
131-169): one text line per player at x = 10, stepping y by 30 from 10. -/
def player_lines_ops (nickname : String) (gl : GameLogic) : List RenderOp :=
  gl.players.enum.map (fun p =>
    RenderOp.text (player_line nickname gl p.1 p.2) (line_color gl p.1)
      (10, 10 + 30 * (p.1 : Int)))

/-- The full behaviour of `draw_ui` (renderer.py lines 120-265),
parametric in the window size constants `W`, `H` and the configured
nickname: the operation trace paired with the returned button, or `none`
for the index error of `get_current_player` on an invalid snapshot.
The `y_offset` threading of the source is 10 + 30·(number of players)
after the label loop, advanced by 25 by the move-die line. -/
def draw_ui_ops (W H : Int) (nickname : String) (gl : GameLogic) :
    Option (List RenderOp × Option ButtonRegion) :=
  (get_current_player gl).map (fun current =>
    let playerOps := player_lines_ops nickname gl
    let y1 : Int := 10 + 30 * gl.players.length
    let diceOps :=
      if gl.dice_result > 0 then
        [RenderOp.text ("移动骰子点数: " ++ toString gl.dice_result) Color.BLACK (10, y1 + 20)]
      else []
    let y2 : Int := if gl.dice_result > 0 then y1 + 25 else y1
    let effectOps :=
      if gl.effect_dice_result > 0 then
        [RenderOp.text ("效果骰子点数: " ++ toString gl.effect_dice_result) Color.BLACK (10, y2 + 20)]
      else []
    let messageOp := RenderOp.text gl.message Color.BLACK (10, H - 80)
    let statusText :=
      if gl.waiting_for_effect_dice then
        "等待 " ++ current_player_name nickname gl current ++ " 投掷效果骰子..."
      else
        current_player_name nickname gl current ++ " 的回合"
    let statusColor := if gl.waiting_for_effect_dice then Color.GOLD else Color.BLACK
    let statusOp := RenderOp.textCentered statusText statusColor (W / 2, H - 40)
    let btn : Option ButtonRegion :=
      if gl.is_game_over then some (restart_button W H)
      else if gl.waiting_for_effect_dice && should_show_button gl current then
        some (effect_dice_button W H)
      else if should_show_button gl current then some (roll_dice_button W H)
      else none
    let btnOps := match btn with | some b => button_ops b | none => []
    (playerOps ++ diceOps ++ effectOps ++ [messageOp, statusOp] ++ btnOps, btn))

/-- The button returned by `draw_ui`: `none` for the index error,
`some none` for the Python `return None`, `some (some b)` for a drawn
button. -/
def draw_ui_button (W H : Int) (nickname : String) (gl : GameLogic) :
    Option (Option ButtonRegion) :=
  (draw_ui_ops W H nickname gl).map Prod.snd

/-- C1: draw_ui selects the action button by strict priority: game over
always returns the restart button regardless of waiting state and
authorization; otherwise waiting-for-effect-die with authorization
returns the effect-die button; otherwise authorization alone returns the
roll-die button; without authorization no button is returned.
Authorization is `is_local_player_turn()` in a networked game and
`not current.is_ai` otherwise. -/
theorem C1_button_priority (W H : Int) (nickname : String) (gl : GameLogic)
    (current : Player) (hc : get_current_player gl = some current) :
    (gl.is_local_player_turn = none →
      should_show_button gl current = !current.is_ai) ∧
    (∀ b, gl.is_local_player_turn = some b →
      should_show_button gl current = b) ∧
    (gl.is_game_over = true →
      draw_ui_button W H nickname gl = some (some (restart_button W H))) ∧
    (gl.is_game_over = false → gl.waiting_for_effect_dice = true →
      should_show_button gl current = true →
      draw_ui_button W H nickname gl = some (some (effect_dice_button W H))) ∧
    (gl.is_game_over = false → gl.waiting_for_effect_dice = false →
      should_show_button gl current = true →
      draw_ui_button W H nickname gl = some (some (roll_dice_button W H))) ∧
    (gl.is_game_over = false → should_show_button gl current = false →
      draw_ui_button W H nickname gl = some none) := by
  refine ⟨?_, ?_, ?_, ?_, ?_, ?_⟩
  · intro h
    simp [should_show_button, h]
  · intro b h
    simp [should_show_button, h]
  · intro h
    simp [draw_ui_button, draw_ui_ops, hc, h]
  · intro h1 h2 h3
    simp [draw_ui_button, draw_ui_ops, hc, h1, h2, h3]
  · intro h1 h2 h3
    simp [draw_ui_button, draw_ui_ops, hc, h1, h2, h3]
  · intro h1 h2
    simp [draw_ui_button, draw_ui_ops, hc, h1, h2]

/-- Witness for C1: a finished game that is also waiting for the effect
die, viewed by an unauthorized networked client, still yields the
restart button. -/
theorem C1_button_priority_witness :
    draw_ui_button 800 600 "Ann"
      ⟨[⟨0, 0, Color.RED, true, none, 0, "电脑"⟩], 0, 0, 0, "", true, true,
        some false, some 1⟩ =
      some (some (restart_button 800 600)) :=
  (C1_button_priority 800 600 "Ann"
    ⟨[⟨0, 0, Color.RED, true, none, 0, "电脑"⟩], 0, 0, 0, "", true, true,
      some false, some 1⟩
    ⟨0, 0, Color.RED, true, none, 0, "电脑"⟩ rfl).2.2.1 rfl

/-- C5: when the game is in progress, no effect die is pending, the
session is non-networked and the current player is an AI, draw_ui
returns no button region. -/
theorem C5_no_button_on_ai_turn (W H : Int) (nickname : String)
    (gl : GameLogic) (current : Player)
    (hc : get_current_player gl = some current)
    (hover : gl.is_game_over = false)
    (hwait : gl.waiting_for_effect_dice = false)
    (hnet : gl.is_local_player_turn = none)
    (hai : current.is_ai = true) :
    draw_ui_button W H nickname gl = some none := by
  simp [draw_ui_button, draw_ui_ops, hc, hover, hwait, should_show_button, hnet, hai]

/-- Witness for C5 on a concrete single-AI in-progress game. -/
theorem C5_no_button_on_ai_turn_witness :
    draw_ui_button 800 600 "Ann"
      ⟨[⟨0, 0, Color.RED, true, none, 0, "电脑"⟩], 0, 0, 0, "", false, false,
        none, none⟩ = some none :=
  C5_no_button_on_ai_turn 800 600 "Ann"
    ⟨[⟨0, 0, Color.RED, true, none, 0, "电脑"⟩], 0, 0, 0, "", false, false,
      none, none⟩
    ⟨0, 0, Color.RED, true, none, 0, "电脑"⟩ rfl rfl rfl rfl rfl

/-- C10: every button region returned by draw_ui is the same fixed
rectangle x = W - 150, y = H - 60, width 120, height 40, whichever of
the three variants it is. -/
theorem C10_button_geometry (W H : Int) (nickname : String) (gl : GameLogic)
    (b : ButtonRegion) (h : draw_ui_button W H nickname gl = some (some b)) :
    b.x = W - 150 ∧ b.y = H - 60 ∧ b.w = 120 ∧ b.h = 40 := by
  rcases hcur : get_current_player gl with _ | current
  · simp [draw_ui_button, draw_ui_ops, hcur] at h
  · simp [draw_ui_button, draw_ui_ops, hcur] at h
    split at h
    · obtain rfl : restart_button W H = b := by simpa using h
      exact ⟨rfl, rfl, rfl, rfl⟩
    · split at h
      · obtain rfl : effect_dice_button W H = b := by simpa using h
        exact ⟨rfl, rfl, rfl, rfl⟩
      · split at h
        · obtain rfl : roll_dice_button W H = b := by simpa using h
          exact ⟨rfl, rfl, rfl, rfl⟩
        · simp at h

/-- Witness for C10 on a concrete finished game returning the restart
button. -/
theorem C10_button_geometry_witness :
    (restart_button 800 600).x = 800 - 150 ∧
    (restart_button 800 600).y = 600 - 60 ∧
    (restart_button 800 600).w = 120 ∧ (restart_button 800 600).h = 40 :=
  C10_button_geometry 800 600 "Ann"
    ⟨[⟨0, 0, Color.RED, true, none, 0, "电脑"⟩], 0, 0, 0, "", false, true,
      none, none⟩
    (restart_button 800 600) rfl

/-- C4: in a networked session, a human player's stored name is shown
only when it differs from the locally configured nickname; when the
stored name equals the local nickname, the label falls back to the local
nickname without any disambiguation. -/
theorem C4_nickname_collision (nickname n : String) (gl : GameLogic)
    (i : Nat) (p : Player) (hnet : is_network_game gl = true)
    (hh : p.is_ai = false) (hname : p.name = some n) :
    (n ≠ nickname → human_shown_name (is_network_game gl) nickname p = n) ∧
    (n = nickname → human_shown_name (is_network_game gl) nickname p = nickname) ∧
    (player_base_text nickname (is_network_game gl) i p =
      "玩家" ++ toString (i + 1) ++ "(" ++
        human_shown_name (is_network_game gl) nickname p ++ "): " ++
        toString p.money ++ "金币") := by
  refine ⟨?_, ?_, ?_⟩
  · intro hne
    simp [human_shown_name, hname, hnet, hne]
  · intro he
    simp [human_shown_name, hname, hnet, he]
  · simp [player_base_text, hh]

/-- Witness for C4 at the collision input: remote stored name equal to
the local nickname renders as the local nickname. -/
theorem C4_nickname_collision_witness :
    human_shown_name
      (is_network_game ⟨[], 0, 0, 0, "", false, false, some true, some 0⟩)
      "Ann" ⟨1, 5, Color.GREEN, false, some "Ann", 0, "玩家"⟩ = "Ann" :=
  (C4_nickname_collision "Ann" "Ann"
    ⟨[], 0, 0, 0, "", false, false, some true, some 0⟩ 1
    ⟨1, 5, Color.GREEN, false, some "Ann", 0, "玩家"⟩ rfl rfl rfl).2.1 rfl

/-- A non-networked two-human snapshot exhibiting the C3 divergence:
the game logic exposes neither networked accessor. -/
def glC3 : GameLogic :=
  ⟨[⟨0, 0, Color.GREEN, false, none, 0, "玩家"⟩,
    ⟨1, 0, Color.RED, false, none, 0, "玩家"⟩], 0, 0, 0, "", false, false,
    none, none⟩

/-- C3 evaluation at the failing input: in a non-networked session with
two human players, the renderer marks both slot 0 and slot 1 as local
(renderer.py line 158 tests `not player.is_ai` per player), so slot 1
also receives the "[你] " label even though the first non-AI player is
slot 0; the code's own comment on line 157 says only the first non-AI
player is the local player. -/
theorem C3_every_human_marked_local :
    is_local_player glC3 0 ⟨0, 0, Color.GREEN, false, none, 0, "玩家"⟩ = true ∧
    is_local_player glC3 1 ⟨1, 0, Color.RED, false, none, 0, "玩家"⟩ = true ∧
    player_line "Ann" glC3 1 ⟨1, 0, Color.RED, false, none, 0, "玩家"⟩ =
      "[你] 玩家2(Ann): 0金币" := by
  refine ⟨rfl, rfl, ?_⟩
  decide

/-- The mutable frame state: the externally owned screen surface (as the
ordered trace of pixel-writing operations) together with the read-only
input snapshots supplied by the caller. -/
structure World where
  surface : List RenderOp
  board : Board
  players : List Player
  animation : AnimationManager
  game_logic : GameLogic
  nickname : String

/-- `Renderer.draw_board` as a state transformer: appends the board
operations to the surface. -/
def draw_board_st (w : World) : World :=
  { w with surface := w.surface ++ draw_board_ops w.board }

/-- `Renderer.draw_players` as a state transformer: appends the player
token operations to the surface. -/
def draw_players_st (w : World) : World :=
  { w with surface := w.surface ++ draw_players_ops w.players w.board w.animation }

/-- `Renderer.draw_ui` as a state transformer: appends the UI operations
to the surface and returns the optional button region; `none` embeds the
index error on an invalid current-player index. -/
def draw_ui_st (W H : Int) (w : World) : Option (World × Option ButtonRegion) :=
  (draw_ui_ops W H w.nickname w.game_logic).map
    (fun r => ({ w with surface := w.surface ++ r.1 }, r.2))

/-- C9: no Renderer drawing operation mutates its input snapshots: the
board, player list, animation snapshot, game-logic snapshot and
configured nickname are unchanged by draw_board, draw_players and
draw_ui; the only state effect is appending pixel-writing operations to
the surface. -/
theorem C9_renderer_mutates_only_surface (W H : Int) (w : World) :
    ((draw_board_st w).board = w.board ∧
     (draw_board_st w).players = w.players ∧
     (draw_board_st w).animation = w.animation ∧
     (draw_board_st w).game_logic = w.game_logic ∧
     (draw_board_st w).nickname = w.nickname ∧
     (draw_board_st w).surface = w.surface ++ draw_board_ops w.board) ∧
    ((draw_players_st w).board = w.board ∧
     (draw_players_st w).players = w.players ∧
     (draw_players_st w).animation = w.animation ∧
     (draw_players_st w).game_logic = w.game_logic ∧
     (draw_players_st w).nickname = w.nickname ∧
     (draw_players_st w).surface =
       w.surface ++ draw_players_ops w.players w.board w.animation) ∧
    (∀ r, draw_ui_st W H w = some r →
      r.1.board = w.board ∧ r.1.players = w.players ∧
      r.1.animation = w.animation ∧ r.1.game_logic = w.game_logic ∧
      r.1.nickname = w.nickname) := by
  refine ⟨⟨rfl, rfl, rfl, rfl, rfl, rfl⟩, ⟨rfl, rfl, rfl, rfl, rfl, rfl⟩, ?_⟩
  intro r hr
  rw [draw_ui_st] at hr
  rcases h2 : draw_ui_ops W H w.nickname w.game_logic with _ | pr
  · rw [h2] at hr
    simp at hr
  · rw [h2] at hr
    have hr3 : ({ w with surface := w.surface ++ pr.1 }, pr.2) = r :=
      Option.some.inj hr
    subst hr3
    exact ⟨rfl, rfl, rfl, rfl, rfl⟩

/-- A concrete single-AI frame for the C9 witness. -/
def wC9 : World :=
  { surface := []
    board := ⟨[], fun _ => ⟨false, false, false, 0⟩, fun _ => (0, 0)⟩
    players := [⟨0, 0, Color.RED, true, none, 0, "电脑"⟩]
    animation := ⟨false, 0, fun _ _ => (0, 0)⟩
    game_logic := ⟨[⟨0, 0, Color.RED, true, none, 0, "电脑"⟩], 0, 0, 0, "",
      false, false, none, none⟩
    nickname := "Ann" }

/-- The post-frame world of the C9 witness call. -/
def wC9After : World :=
  { wC9 with surface := wC9.surface ++
      [RenderOp.text ">>> 电脑1: 0金币 <<<" Color.RED (10, 10),
       RenderOp.text "" Color.BLACK (10, 520),
       RenderOp.textCentered "电脑1 的回合" Color.BLACK (400, 560)] }

/-- Witness for C9: drawing the UI on a concrete frame leaves the
game-logic snapshot unchanged. -/
theorem C9_renderer_mutates_only_surface_witness :
    ((wC9After, (none : Option ButtonRegion)).1.game_logic = wC9.game_logic) :=
  (((C9_renderer_mutates_only_surface 800 600 wC9).2.2
    (wC9After, (none : Option ButtonRegion)) (by rfl))).2.2.2.1
